import Mathlib

/-
  Verification development for the tailscale-cni daemon (pkg/daemon).

  The Go sources are shallowly embedded: pure string helpers become Lean
  functions over String / List Char; the stateful PodManager operations
  become explicit state passing over a World record, with the outcome of
  each effectful kernel / control-plane step supplied by an environment
  record of Except values.
-/

/- ===== Character classes used by the regular expressions in pods.go ===== -/

/-- The character class [a-z0-9] used by replicaSetPattern and deploymentPattern. -/
def isLowerAlnum (c : Char) : Bool :=
  (decide ('a' ≤ c) && decide (c ≤ 'z')) || (decide ('0' ≤ c) && decide (c ≤ '9'))

/-- The character class \d = [0-9] used by statefulSetOrdinalPattern. -/
def isDigitCh (c : Char) : Bool :=
  decide ('0' ≤ c) && decide (c ≤ '9')

/-- The RE2 dot metacharacter matches every character except a newline; this predicate
holds of lists in which every character could be matched by `.` . -/
def noNL (l : List Char) : Bool :=
  l.all (fun c => !(c == '\n'))

/- ===== stripKubernetesSuffixes (pods.go) =====

   statefulSetOrdinalPattern = `-\d{1,3}$`
   replicaSetPattern         = `^(.+)-[a-z0-9]{8,10}-[a-z0-9]{5}$`
   deploymentPattern         = `^(.+)-[a-z0-9]{8,10}$`

   The matchers below are phrased over the reversed character list: position i
   in the reverse is the (i+1)-th character from the end of the name. -/

/-- Matches `-\d{1,3}$`: the name has 1 to 3 trailing digits and the character
just before that digit run is a dash.  (For any longer trailing digit run no
suffix of it is preceded by a dash, so the regex fails.) -/
def statefulSetOrdinalMatch (l : List Char) : Bool :=
  let td := (l.reverse.takeWhile isDigitCh).length
  decide (1 ≤ td) && decide (td ≤ 3) && ((l.reverse.drop td).head? == some '-')

/-- Matches `^(.+)-[a-z0-9]{8,10}-[a-z0-9]{5}$` with a hash of exactly `m`
characters: the last five characters are lowercase alphanumerics, preceded by a
dash, preceded by `m` lowercase alphanumerics, preceded by a dash, preceded by
a nonempty group matched by `(.+)` (whose characters therefore exclude the
newline). -/
def rsMatchAt (l : List Char) (m : Nat) : Bool :=
  decide (m + 8 ≤ l.length) &&
  (l.reverse.take 5).all isLowerAlnum &&
  (l.reverse.get? 5 == some '-') &&
  ((l.reverse.drop 6).take m).all isLowerAlnum &&
  (l.reverse.get? (m + 6) == some '-') &&
  noNL (l.take (l.length - (m + 7)))

/-- The submatch of `(.+)` in replicaSetPattern.  `(.+)` is greedy, so Go
returns the longest prefix, i.e. the smallest hash length m; the three
candidate hash lengths are mutually exclusive anyway, since each places a dash
where the others require an alphanumeric. -/
def rsStrip (l : List Char) : Option (List Char) :=
  if rsMatchAt l 8 then some (l.take (l.length - 15))
  else if rsMatchAt l 9 then some (l.take (l.length - 16))
  else if rsMatchAt l 10 then some (l.take (l.length - 17))
  else none

/-- Matches `^(.+)-[a-z0-9]{8,10}$` with a hash of exactly `m` characters. -/
def depMatchAt (l : List Char) (m : Nat) : Bool :=
  decide (m + 2 ≤ l.length) &&
  (l.reverse.take m).all isLowerAlnum &&
  (l.reverse.get? m == some '-') &&
  noNL (l.take (l.length - (m + 1)))

/-- The submatch of `(.+)` in deploymentPattern (greedy, as in rsStrip). -/
def depStrip (l : List Char) : Option (List Char) :=
  if depMatchAt l 8 then some (l.take (l.length - 9))
  else if depMatchAt l 9 then some (l.take (l.length - 10))
  else if depMatchAt l 10 then some (l.take (l.length - 11))
  else none

/-- stripKubernetesSuffixes from pods.go: the StatefulSet ordinal check comes
first, then the ReplicaSet pattern, then the Deployment pattern. -/
def stripKubernetesSuffixes (s : String) : String :=
  if statefulSetOrdinalMatch s.data then s
  else
    match rsStrip s.data with
    | some p => String.mk p
    | none =>
      match depStrip s.data with
      | some p => String.mk p
      | none => s

/- ===== The four ordered suffix-stripping rules, as the spec states them =====

   These definitions follow the spec text of section 4.7 rather than the Go
   regexes: rule prefixes are arbitrary nonempty strings, with no newline
   restriction. -/

/-- Modelled from the spec: rule 2 decomposition with a middle block of exactly
`m` lowercase alphanumerics; the `<prefix>` may be any nonempty string. -/
def rsMatchAtSpec (l : List Char) (m : Nat) : Bool :=
  decide (m + 8 ≤ l.length) &&
  (l.reverse.take 5).all isLowerAlnum &&
  (l.reverse.get? 5 == some '-') &&
  ((l.reverse.drop 6).take m).all isLowerAlnum &&
  (l.reverse.get? (m + 6) == some '-')

/-- Modelled from the spec: the `<prefix>` returned by rule 2. -/
def rsStripSpec (l : List Char) : Option (List Char) :=
  if rsMatchAtSpec l 8 then some (l.take (l.length - 15))
  else if rsMatchAtSpec l 9 then some (l.take (l.length - 16))
  else if rsMatchAtSpec l 10 then some (l.take (l.length - 17))
  else none

/-- Modelled from the spec: rule 3 decomposition with a block of exactly `m`
lowercase alphanumerics. -/
def depMatchAtSpec (l : List Char) (m : Nat) : Bool :=
  decide (m + 2 ≤ l.length) &&
  (l.reverse.take m).all isLowerAlnum &&
  (l.reverse.get? m == some '-')

/-- Modelled from the spec: the `<prefix>` returned by rule 3. -/
def depStripSpec (l : List Char) : Option (List Char) :=
  if depMatchAtSpec l 8 then some (l.take (l.length - 9))
  else if depMatchAtSpec l 9 then some (l.take (l.length - 10))
  else if depMatchAtSpec l 10 then some (l.take (l.length - 11))
  else none

/-- Modelled from the spec: the four ordered rules of section 4.7. -/
def stripSuffixRulesSpec (s : String) : String :=
  if statefulSetOrdinalMatch s.data then s
  else
    match rsStripSpec s.data with
    | some p => String.mk p
    | none =>
      match depStripSpec s.data with
      | some p => String.mk p
      | none => s

/- ===== sanitizeHostname (pods.go) ===== -/

/-- The character class [a-z0-9-] of the complement of hostnameInvalidCharsPattern. -/
def hostAllowed (c : Char) : Bool :=
  isLowerAlnum c || c == '-'

/-- hostnameInvalidCharsPattern.ReplaceAllString(s, "-"): every character
outside [a-z0-9-] becomes a dash. -/
def replaceInvalidChars (l : List Char) : List Char :=
  l.map (fun c => if hostAllowed c then c else '-')

/-- hostnameMultipleDashPattern.ReplaceAllString(s, "-"): each maximal run of
dashes collapses to a single dash. -/
def collapseDashes : List Char → List Char
  | [] => []
  | [c] => [c]
  | a :: b :: rest =>
    if a == '-' && b == '-' then collapseDashes (b :: rest)
    else a :: collapseDashes (b :: rest)

/-- strings.Trim(s, "-"): remove leading and trailing dashes. -/
def trimDashes (l : List Char) : List Char :=
  ((l.dropWhile (· == '-')).reverse.dropWhile (· == '-')).reverse

/-- sanitizeHostname from pods.go.  strings.ToLower is modelled on ASCII
(hostnames here are built from ASCII Kubernetes identifiers); the final
truncation is the conditional byte slice of the source, which on the all-ASCII
intermediate string is a character slice. -/
def sanitizeHostname (s : String) : String :=
  let s1 := s.data.map Char.toLower
  let s2 := replaceInvalidChars s1
  let s3 := collapseDashes s2
  let s4 := trimDashes s3
  let s5 := if 63 < s4.length then s4.take 63 else s4
  String.mk s5

/- ===== tunNameForContainer (pods.go) ===== -/

/-- tunNameForContainer: "ts-" plus the first eight characters of the container
id (the whole id when it has at most eight).  Go slices bytes; container ids
are ASCII, so bytes and characters coincide. -/
def tunNameForContainer (containerID : String) : String :=
  let suffix := if 8 < containerID.data.length
    then String.mk (containerID.data.take 8) else containerID
  "ts-" ++ suffix

/- ===== The PodManager state model =====

   A World carries the PodManager registry together with the externally
   visible side effects the claims speak about: minted credentials, the
   per-container state directories, and the kernel objects (TUN devices,
   host-side veth ends, routes).  Live process handles (LocalBackend,
   wgengine, netmon) have no observable state of their own here beyond the
   backend state string reported by CheckPod. -/

/-- ManagedServer (pods.go): the scalar fields of a managed pod node, plus
backendState modelling Backend.Status().BackendState. -/
structure ManagedServer where
  containerID : String
  podName : String
  podNamespace : String
  hostname : String
  clusterIP : String
  hostVethName : String
  tailscaleIPv4 : String
  tailscaleIPv6 : Option String
  backendState : String
  deriving Repr, DecidableEq

/-- The daemon-visible state: the registry map and the kernel / filesystem
objects the operations create and destroy. -/
structure World where
  clusterName : String
  servers : List (String × ManagedServer)
  minted : Nat
  stateDirs : List String
  tuns : List String
  veths : List String
  routes : List String
  deriving Repr, DecidableEq

/-- A fresh daemon state (NewPodManager): empty registry, nothing minted,
no per-pod kernel or filesystem objects. -/
def World.init (clusterName : String) : World :=
  { clusterName := clusterName, servers := [], minted := 0,
    stateDirs := [], tuns := [], veths := [], routes := [] }

/-- Go map read pm.servers[containerID]. -/
def lookupServer (w : World) (cid : String) : Option ManagedServer :=
  (w.servers.find? (fun p => p.1 == cid)).map Prod.snd

/-- Go map assignment pm.servers[k] = v (overwrites any entry for k). -/
def mapSet (l : List (String × ManagedServer)) (k : String) (v : ManagedServer) :
    List (String × ManagedServer) :=
  (k, v) :: l.filter (fun p => !(p.1 == k))

/-- Go delete(pm.servers, k). -/
def mapDelete (l : List (String × ManagedServer)) (k : String) :
    List (String × ManagedServer) :=
  l.filter (fun p => !(p.1 == k))

/-- Removing a named object (os.RemoveAll / netlink.LinkDel semantics:
removing an absent object is not an error). -/
def removeAll (l : List String) (x : String) : List String :=
  l.filter (fun y => !(y == x))

/-- Creating a named object; creating it twice keeps one copy. -/
def insertNew (l : List String) (x : String) : List String :=
  if l.contains x then l else x :: l

/-- Whether an Except carries a success. -/
def exceptOk {α : Type} : Except String α → Bool
  | .ok _ => true
  | .error _ => false

/- ===== setupVethBridge (pods.go) =====

   The outcome of each kernel call is supplied by a BridgeEnv.  The Go code
   treats three failures as warnings only: the host-side /32 route to the pod
   address, the proxy-ARP sysctl write, the IPv4-forwarding sysctl write, and
   likewise the CGNAT route via the TUN link. -/

structure BridgeEnv where
  getNS : Except String Unit
  randVethName : Except String String
  linkAdd : Except String Unit
  getPodLink : Except String Unit
  getHostLink : Except String Unit
  setNsFd : Except String Unit
  addrAdd : Except String Unit
  podLinkSetUp : Except String Unit
  podRouteAdd : Except String Unit
  hostGetVeth : Except String Unit
  hostLinkSetUp : Except String Unit
  hostPodRouteAdd : Except String Unit
  proxyArpWrite : Except String Unit
  ipForwardWrite : Except String Unit
  getTunLink : Except String Unit
  tunRouteAdd : Except String Unit
  deriving Repr

/-- setupVethBridge: creates the veth pair in the pod namespace, moves the
host end out, addresses and routes both sides.  Returns the host veth name. -/
def setupVethBridge (w : World) (env : BridgeEnv) (podIfName tunName ip : String) :
    World × Except String String :=
  match env.getNS with
  | .error e => (w, .error ("getting netns: " ++ e))
  | .ok _ =>
  match env.randVethName with
  | .error e => (w, .error ("generating random veth name: " ++ e))
  | .ok hostVethName =>
  match env.linkAdd with
  | .error e => (w, .error ("creating veth pair: " ++ e))
  | .ok _ =>
  let w := { w with veths := insertNew w.veths hostVethName }
  match env.getPodLink with
  | .error e => (w, .error ("getting pod interface: " ++ e))
  | .ok _ =>
  match env.getHostLink with
  | .error e => (w, .error ("getting host interface: " ++ e))
  | .ok _ =>
  match env.setNsFd with
  | .error e => (w, .error ("moving host veth: " ++ e))
  | .ok _ =>
  match env.addrAdd with
  | .error e => (w, .error ("adding IP to pod interface: " ++ e))
  | .ok _ =>
  match env.podLinkSetUp with
  | .error e => (w, .error ("bringing up pod interface: " ++ e))
  | .ok _ =>
  match env.podRouteAdd with
  | .error e => (w, .error ("adding Tailscale route: " ++ e))
  | .ok _ =>
  let w := { w with routes := insertNew w.routes ("cgnat-dev:" ++ podIfName) }
  match env.hostGetVeth with
  | .error e => (w, .error ("getting host veth: " ++ e))
  | .ok _ =>
  match env.hostLinkSetUp with
  | .error e => (w, .error ("bringing up host veth: " ++ e))
  | .ok _ =>
  -- Route to the pod address via the host veth: failure is only logged.
  let w := match env.hostPodRouteAdd with
    | .ok _ => { w with routes := insertNew w.routes ("host32:" ++ ip) }
    | .error _ => w
  -- proxy_arp and ip_forward sysctl writes: failures are only logged.
  match env.getTunLink with
  | .error e => (w, .error ("getting TUN link for routing: " ++ e))
  | .ok _ =>
  -- CGNAT route via the TUN link: may already exist, failure is only logged.
  let w := match env.tunRouteAdd with
    | .ok _ => { w with routes := insertNew w.routes ("cgnat-tun:" ++ tunName) }
    | .error _ => w
  (w, .ok hostVethName)

/- ===== AddPod (pods.go) ===== -/

/-- The outcomes of the effectful steps of AddPod, in source order. -/
structure AddEnv where
  authKey : Except String String
  mkStateDir : Except String Unit
  tunNew : Except String Unit
  tunGetLink : Except String Unit
  tunSetUp : Except String Unit
  netmonNew : Except String Unit
  engineNew : Except String Unit
  netstackNew : Except String Unit
  fileStoreNew : Except String Unit
  logidNew : Except String Unit
  backendNew : Except String Unit
  netstackStart : Except String Unit
  backendStart : Except String Unit
  needsLogin : Bool
  loginStart : Except String Unit
  ipWait : Except String String
  ipv6 : Option String
  bridge : BridgeEnv
  deriving Repr

/-- AddPod.  An existing registry entry is returned unchanged before any
side effect.  Every failure after TUN creation unwinds by closing the TUN
(directly or through the engine that owns it) and removing the state
directory; the registry is only written on full success.  saveMetadata
failures are only logged and are not modelled. -/
def AddPod (w : World) (env : AddEnv)
    (cid netnsPath ifName podName podNamespace clusterIP : String) :
    World × Except String ManagedServer :=
  match lookupServer w cid with
  | some srv => (w, .ok srv)
  | none =>
  let cleanPodName := stripKubernetesSuffixes podName
  let hostname := sanitizeHostname (w.clusterName ++ "-" ++ podNamespace ++ "-" ++ cleanPodName)
  match env.authKey with
  | .error e => (w, .error ("creating auth key: " ++ e))
  | .ok _ =>
  let w := { w with minted := w.minted + 1 }
  match env.mkStateDir with
  | .error e => (w, .error ("creating state directory: " ++ e))
  | .ok _ =>
  let w := { w with stateDirs := insertNew w.stateDirs cid }
  let tunName := tunNameForContainer cid
  match env.tunNew with
  | .error e => ({ w with stateDirs := removeAll w.stateDirs cid },
                 .error ("creating TUN device: " ++ e))
  | .ok _ =>
  let w := { w with tuns := insertNew w.tuns tunName }
  -- The unwind of every later failure: the TUN device is closed (destroying
  -- the kernel link) and the state directory is removed.
  let unwind := fun (u : World) =>
    { u with tuns := removeAll u.tuns tunName, stateDirs := removeAll u.stateDirs cid }
  match env.tunGetLink with
  | .error e => (unwind w, .error ("getting TUN link: " ++ e))
  | .ok _ =>
  match env.tunSetUp with
  | .error e => (unwind w, .error ("bringing up TUN: " ++ e))
  | .ok _ =>
  match env.netmonNew with
  | .error e => (unwind w, .error ("creating network monitor: " ++ e))
  | .ok _ =>
  match env.engineNew with
  | .error e => (unwind w, .error ("creating wgengine: " ++ e))
  | .ok _ =>
  match env.netstackNew with
  | .error e => (unwind w, .error ("creating netstack: " ++ e))
  | .ok _ =>
  match env.fileStoreNew with
  | .error e => (unwind w, .error ("creating state store: " ++ e))
  | .ok _ =>
  match env.logidNew with
  | .error e => (unwind w, .error ("creating log ID: " ++ e))
  | .ok _ =>
  match env.backendNew with
  | .error e => (unwind w, .error ("creating LocalBackend: " ++ e))
  | .ok _ =>
  match env.netstackStart with
  | .error e => (unwind w, .error ("starting netstack: " ++ e))
  | .ok _ =>
  match env.backendStart with
  | .error e => (unwind w, .error ("starting LocalBackend: " ++ e))
  | .ok _ =>
  match (if env.needsLogin then env.loginStart else .ok ()) with
  | .error e => (unwind w, .error ("starting login: " ++ e))
  | .ok _ =>
  match env.ipWait with
  | .error e => (unwind w, .error ("timeout waiting for Tailscale IP (state: " ++ e ++ ")"))
  | .ok tailscaleIPv4 =>
  let bres := setupVethBridge w env.bridge ifName tunName tailscaleIPv4
  match bres.2 with
  | .error e => (unwind bres.1, .error ("setting up veth bridge: " ++ e))
  | .ok hostVethName =>
  let managed : ManagedServer :=
    { containerID := cid, podName := podName, podNamespace := podNamespace,
      hostname := hostname, clusterIP := clusterIP, hostVethName := hostVethName,
      tailscaleIPv4 := tailscaleIPv4, tailscaleIPv6 := env.ipv6,
      backendState := "Running" }
  ({ bres.1 with servers := mapSet bres.1.servers cid managed }, .ok managed)

/- ===== DeletePod / CheckPod (pods.go) ===== -/

/-- DeletePod: an absent id returns success untouched; otherwise the backend
is shut down and the engine closed (destroying the TUN device), the host veth
is deleted if it still exists, the state directory is removed, and the
registry entry is dropped.  Every kernel removal is best-effort and the
function always returns success. -/
def DeletePod (w : World) (cid : String) : World × Except String Unit :=
  match lookupServer w cid with
  | none => (w, .ok ())
  | some managed =>
    let w := { w with tuns := removeAll w.tuns (tunNameForContainer cid) }
    let w := if managed.hostVethName == "" then w
      else { w with veths := removeAll w.veths managed.hostVethName }
    let w := { w with stateDirs := removeAll w.stateDirs cid }
    ({ w with servers := mapDelete w.servers cid }, .ok ())

/-- CheckPod: read-only; an unknown id is (healthy=false, "pod not found")
with a nil error, a known id is healthy iff its backend reports Running. -/
def CheckPod (w : World) (cid : String) :
    World × (Bool × String × Option String) :=
  match lookupServer w cid with
  | none => (w, (false, "pod not found", none))
  | some managed =>
    if managed.backendState == "Running" then (w, (true, "healthy", none))
    else (w, (false, "backend state is " ++ managed.backendState, none))

/- ===== Orphan cleanup and recovery (pods.go) ===== -/

/-- cleanupOrphanedPod: best-effort deletion of the deterministic TUN device,
the recorded host veth (when one was recorded), and the state directory. -/
def cleanupOrphanedPod (w : World) (cid hostVethName : String) : World :=
  let w := { w with tuns := removeAll w.tuns (tunNameForContainer cid) }
  let w := if hostVethName == "" then w
    else { w with veths := removeAll w.veths hostVethName }
  { w with stateDirs := removeAll w.stateDirs cid }

/-- The TUN names CleanupOrphanedResources treats as owned: one per
registered container id. -/
def knownTUNs (w : World) : List String :=
  w.servers.map (fun p => tunNameForContainer p.1)

/-- CleanupOrphanedResources: every link whose name starts with "ts-" and is
not owned by a registered instance is deleted. -/
def CleanupOrphanedResources (w : World) : World :=
  { w with tuns :=
      w.tuns.filter (fun name => !(name.startsWith "ts-") || (knownTUNs w).contains name) }

/-- PodMetadata (pods.go): the persisted scalar record. -/
structure PodMetadata where
  containerID : String
  podName : String
  podNamespace : String
  hostname : String
  tailscaleIPv4 : String
  netnsPath : String
  hostVethName : String
  clusterIP : String
  deriving Repr, DecidableEq

/-- The environment of recoverPod for one persisted record: whether the
metadata file loads, whether the namespace path and state file still exist,
and the outcomes of the stored-address parse and of recoverPodBackend. -/
structure RecoverEnv where
  meta : Except String PodMetadata
  netnsAlive : Bool
  stateFileExists : Bool
  ipParse : Except String String
  backend : Except String ManagedServer
  deriving Repr

/-- recoverPod: a record whose namespace path is gone, or that has no state
file, is orphan-cleaned with no error surfaced; metadata, address-parse and
backend failures surface as errors; a recovered backend is installed in the
registry. -/
def recoverPod (w : World) (cid : String) (env : RecoverEnv) :
    World × Except String Unit :=
  match env.meta with
  | .error e => (w, .error ("loading metadata: " ++ e))
  | .ok meta =>
  if !env.netnsAlive then (cleanupOrphanedPod w cid meta.hostVethName, .ok ())
  else if !env.stateFileExists then
    (cleanupOrphanedPod w cid meta.hostVethName, .ok ())
  else
    match env.ipParse with
    | .error e => (w, .error ("parsing stored Tailscale IP: " ++ e))
    | .ok _ =>
    match env.backend with
    | .error e => (w, .error ("recovering backend: " ++ e))
    | .ok managed =>
      let w := { w with tuns := insertNew w.tuns (tunNameForContainer cid) }
      ({ w with servers := mapSet w.servers cid managed }, .ok ())

/-- RecoverPods: one pass over the persisted records; a failing record
contributes one error and is orphan-cleaned, and the pass continues with the
next record.  Returns the recovered count and the accumulated errors. -/
def RecoverPods (w : World) : List (String × RecoverEnv) → World × Nat × List String
  | [] => (w, 0, [])
  | (cid, env) :: rest =>
    let step := recoverPod w cid env
    match step.2 with
    | .ok _ =>
      let r := RecoverPods step.1 rest
      (r.1, r.2.1 + 1, r.2.2)
    | .error e =>
      let veth := match env.meta with | .ok m => m.hostVethName | .error _ => ""
      let w1 := cleanupOrphanedPod step.1 cid veth
      let r := RecoverPods w1 rest
      (r.1, r.2.1, ("pod " ++ cid ++ ": " ++ e) :: r.2.2)

/- ===== Operation sequences over the registry ===== -/

/-- One RPC-surface operation on the pod manager. -/
inductive Op where
  | add (env : AddEnv) (cid netnsPath ifName podName podNamespace clusterIP : String)
  | delete (cid : String)
  | check (cid : String)

/-- The state reached after one operation. -/
def applyOp (w : World) : Op → World
  | .add env cid netnsPath ifName podName podNamespace clusterIP =>
    (AddPod w env cid netnsPath ifName podName podNamespace clusterIP).1
  | .delete cid => (DeletePod w cid).1
  | .check cid => (CheckPod w cid).1

/-- The state reached after a sequence of operations. -/
def runOps (w : World) : List Op → World
  | [] => w
  | op :: rest => runOps (applyOp w op) rest

/-- How many registry entries carry a given container id. -/
def countKey (cid : String) (l : List (String × ManagedServer)) : Nat :=
  l.countP (fun p => p.1 == cid)

/- ===== The auth-key request (oauth.go) ===== -/

structure AuthKeyCreate where
  reusable : Bool
  ephemeral : Bool
  preauthorized : Bool
  tags : List String
  deriving Repr, DecidableEq

structure AuthKeyDevices where
  create : AuthKeyCreate
  deriving Repr, DecidableEq

structure AuthKeyCapabilities where
  devices : AuthKeyDevices
  deriving Repr, DecidableEq

structure AuthKeyRequest where
  capabilities : AuthKeyCapabilities
  expirySeconds : Nat
  description : String
  deriving Repr, DecidableEq

/-- The request body CreateAuthKey sends to the key-mint endpoint
(oauth.go): the manager tag list, a hard-coded 300-second expiry, and a
description naming the namespace and pod. -/
def buildAuthKeyRequest (tags : List String) (podName podNamespace : String) :
    AuthKeyRequest :=
  { capabilities := { devices := { create :=
      { reusable := false, ephemeral := false, preauthorized := true,
        tags := tags } } },
    expirySeconds := 300,
    description := "tailscale-cni " ++ podNamespace ++ " " ++ podName }

/- ===== Helper lemmas ===== -/

/-- A deleted key is no longer found. -/
theorem find?_mapDelete (l : List (String × ManagedServer)) (cid : String) :
    (mapDelete l cid).find? (fun p => p.1 == cid) = none := by
  unfold mapDelete
  induction l with
  | nil => rfl
  | cons a rest ih =>
    by_cases h : a.1 = cid
    · simp [List.filter_cons, h, ih]
    · simp [List.filter_cons, h, List.find?_cons, ih]

/-- The registry entry is gone after DeletePod. -/
theorem lookupServer_after_delete (w : World) (cid : String) :
    lookupServer (DeletePod w cid).1 cid = none := by
  unfold DeletePod
  cases h : lookupServer w cid with
  | none => simpa using h
  | some managed =>
    simp only [lookupServer]
    split <;> simp [find?_mapDelete]

/-- DeletePod always reports success. -/
theorem deletePod_ok (w : World) (cid : String) :
    (DeletePod w cid).2 = Except.ok () := by
  unfold DeletePod
  cases lookupServer w cid with
  | none => rfl
  | some managed => split <;> rfl

/-- DeletePod of an unregistered id changes nothing and succeeds. -/
theorem deletePod_absent (w : World) (cid : String)
    (h : lookupServer w cid = none) : DeletePod w cid = (w, Except.ok ()) := by
  unfold DeletePod
  rw [h]

/- ===== Claim theorems ===== -/

/-- C2: Add is idempotent on the container id: when an instance is already
registered for the id, AddPod returns that instance unchanged and the whole
world is untouched, so no credential is minted and no state directory, TUN
device, veth pair or route is created, and the registry is unchanged. -/
theorem addPod_idempotent_on_existing :
    ∀ (w : World) (env : AddEnv)
      (cid netnsPath ifName podName podNamespace clusterIP : String)
      (srv : ManagedServer),
      lookupServer w cid = some srv →
      AddPod w env cid netnsPath ifName podName podNamespace clusterIP
        = (w, Except.ok srv) := by
  intro w env cid np ifn pn ns cip srv h
  unfold AddPod
  rw [h]

/-- Witness for C2 at a one-entry registry. -/
def egServer : ManagedServer :=
  { containerID := "c1", podName := "nginx", podNamespace := "default",
    hostname := "k8s-default-nginx", clusterIP := "10.0.0.1",
    hostVethName := "veth0a1b2c3d", tailscaleIPv4 := "100.64.0.7",
    tailscaleIPv6 := none, backendState := "Running" }

/-- Witness for C2 at a one-entry registry. -/
def egWorld : World :=
  { clusterName := "k8s", servers := [("c1", egServer)], minted := 1,
    stateDirs := ["c1"], tuns := ["ts-c1"], veths := ["veth0a1b2c3d"],
    routes := [] }

/-- An arbitrary all-successful environment for AddPod. -/
def egBridgeEnv : BridgeEnv :=
  { getNS := .ok (), randVethName := .ok "veth0a1b2c3d", linkAdd := .ok (),
    getPodLink := .ok (), getHostLink := .ok (), setNsFd := .ok (),
    addrAdd := .ok (), podLinkSetUp := .ok (), podRouteAdd := .ok (),
    hostGetVeth := .ok (), hostLinkSetUp := .ok (), hostPodRouteAdd := .ok (),
    proxyArpWrite := .ok (), ipForwardWrite := .ok (), getTunLink := .ok (),
    tunRouteAdd := .ok () }

/-- An arbitrary all-successful environment for AddPod. -/
def egAddEnv : AddEnv :=
  { authKey := .ok "tskey-auth-x", mkStateDir := .ok (), tunNew := .ok (),
    tunGetLink := .ok (), tunSetUp := .ok (), netmonNew := .ok (),
    engineNew := .ok (), netstackNew := .ok (), fileStoreNew := .ok (),
    logidNew := .ok (), backendNew := .ok (), netstackStart := .ok (),
    backendStart := .ok (), needsLogin := false, loginStart := .ok (),
    ipWait := .ok "100.64.0.7", ipv6 := none, bridge := egBridgeEnv }

/-- Witness for C2: a second Add for the registered id c1 returns the
existing instance and the unchanged world. -/
theorem addPod_idempotent_on_existing_witness :
    AddPod egWorld egAddEnv "c1" "/ns" "ts0" "nginx" "default" "10.0.0.1"
      = (egWorld, Except.ok egServer) :=
  addPod_idempotent_on_existing egWorld egAddEnv "c1" "/ns" "ts0" "nginx"
    "default" "10.0.0.1" egServer rfl

/-- C3: Delete is idempotent and never fails: it always returns success, an
absent id leaves the state untouched, and a second Delete of the same id
succeeds and changes nothing further. -/
theorem deletePod_idempotent_never_fails :
    ∀ (w : World) (cid : String),
      (DeletePod w cid).2 = Except.ok ()
      ∧ (lookupServer w cid = none → DeletePod w cid = (w, Except.ok ()))
      ∧ DeletePod (DeletePod w cid).1 cid = ((DeletePod w cid).1, Except.ok ()) := by
  intro w cid
  exact ⟨deletePod_ok w cid, deletePod_absent w cid,
    deletePod_absent (DeletePod w cid).1 cid (lookupServer_after_delete w cid)⟩

/-- Witness for C3: Delete of an id absent from a fresh daemon state succeeds
and changes nothing. -/
theorem deletePod_idempotent_never_fails_witness :
    DeletePod (World.init "k8s") "c1" = (World.init "k8s", Except.ok ()) :=
  (deletePod_idempotent_never_fails (World.init "k8s") "c1").2.1 rfl

/-- C10: Check of an unregistered container id is not an error: CheckPod
reports healthy=false with message "pod not found" and a nil error, and the
world (registry and all instances) is returned unchanged. -/
theorem checkPod_not_found :
    ∀ (w : World) (cid : String),
      lookupServer w cid = none →
      CheckPod w cid = (w, (false, "pod not found", none)) := by
  intro w cid h
  unfold CheckPod
  rw [h]

/-- Witness for C10 at a fresh daemon state. -/
theorem checkPod_not_found_witness :
    CheckPod (World.init "k8s") "c1"
      = (World.init "k8s", (false, "pod not found", none)) :=
  checkPod_not_found (World.init "k8s") "c1" rfl

/-- C7: every minted key request carries reusable=false, ephemeral=false,
preauthorized=true, the manager tag list, a 300-second expiry, and a
description naming the workload namespace and name.  The expiry is the
constant 300 in CreateAuthKey and does not come from the auth-key-ttl
configuration. -/
theorem createAuthKey_request_fields :
    ∀ (tags : List String) (podName podNamespace : String),
      (buildAuthKeyRequest tags podName podNamespace).capabilities.devices.create.reusable
          = false
      ∧ (buildAuthKeyRequest tags podName podNamespace).capabilities.devices.create.ephemeral
          = false
      ∧ (buildAuthKeyRequest tags podName podNamespace).capabilities.devices.create.preauthorized
          = true
      ∧ (buildAuthKeyRequest tags podName podNamespace).capabilities.devices.create.tags
          = tags
      ∧ (buildAuthKeyRequest tags podName podNamespace).expirySeconds = 300
      ∧ (buildAuthKeyRequest tags podName podNamespace).description
          = "tailscale-cni " ++ podNamespace ++ " " ++ podName := by
  intro tags podName podNamespace
  exact ⟨rfl, rfl, rfl, rfl, rfl, rfl⟩

/-- C9: the TUN device name used by Add is "ts-" plus the first eight
characters of the container id (the whole id when shorter), which is the name
CleanupOrphanedResources treats as owned for a registered instance; hence the
orphan sweep never deletes the TUN device of a live ManagedInstance. -/
theorem tun_naming_and_sweep_safety :
    (∀ cid : String, tunNameForContainer cid = "ts-" ++ String.mk (cid.data.take 8))
    ∧ (∀ (w : World) (cid : String) (inst : ManagedServer),
        (cid, inst) ∈ w.servers →
        tunNameForContainer cid ∈ w.tuns →
        tunNameForContainer cid ∈ (CleanupOrphanedResources w).tuns) := by
  constructor
  · intro cid
    unfold tunNameForContainer
    split
    · rfl
    · have hle : cid.data.length ≤ 8 := by omega
      rw [List.take_of_length_le hle]
  · intro w cid inst hmem htun
    have hknown : tunNameForContainer cid ∈ knownTUNs w := by
      unfold knownTUNs
      exact List.mem_map_of_mem (fun p => tunNameForContainer p.1) hmem
    unfold CleanupOrphanedResources
    simp only [List.mem_filter]
    refine ⟨htun, ?_⟩
    simp only [Bool.not_eq_true', Bool.or_eq_true]
    exact Or.inr (by simpa using hknown)

/-- Witness for C9 at a one-entry registry whose TUN device exists. -/
theorem tun_naming_and_sweep_safety_witness :
    tunNameForContainer "c1" ∈ (CleanupOrphanedResources egWorld).tuns :=
  tun_naming_and_sweep_safety.2 egWorld "c1" egServer (by simp [egWorld])
    (by simp [egWorld, tunNameForContainer])

/-- Every record contributes either to the recovered count or to the error
list: the recovery pass never aborts early. -/
theorem recoverPods_processes_all (recs : List (String × RecoverEnv)) :
    ∀ w : World,
      (RecoverPods w recs).2.1 + (RecoverPods w recs).2.2.length = recs.length := by
  induction recs with
  | nil => intro w; rfl
  | cons r rest ih =>
    intro w
    obtain ⟨cid, env⟩ := r
    unfold RecoverPods
    cases h : (recoverPod w cid env).2 with
    | ok u =>
      simp only [h, List.length_cons]
      have h1 := ih (recoverPod w cid env).1
      omega
    | error e =>
      simp only [h, List.length_cons]
      have h1 := ih (cleanupOrphanedPod (recoverPod w cid env).1 cid
        (match env.meta with | .ok m => m.hostVethName | .error _ => ""))
      omega

/-- C8: a persisted record whose namespace path no longer exists is
orphan-cleaned (deterministic TUN, recorded host veth and state directory
removed) with no error surfaced; and every record of the pass contributes
either to the recovered count or to the per-record error list, so failures
never abort the pass over the remaining records. -/
theorem recovery_orphan_cleanup_and_error_accumulation :
    (∀ (w : World) (cid : String) (env : RecoverEnv) (m : PodMetadata),
        env.meta = Except.ok m → env.netnsAlive = false →
        recoverPod w cid env
          = (cleanupOrphanedPod w cid m.hostVethName, Except.ok ()))
    ∧ (∀ (w : World) (recs : List (String × RecoverEnv)),
        (RecoverPods w recs).2.1 + (RecoverPods w recs).2.2.length
          = recs.length) := by
  constructor
  · intro w cid env m hm hn
    unfold recoverPod
    rw [hm, hn]
    rfl
  · intro w recs
    exact recoverPods_processes_all recs w

/-- Witness metadata for C8. -/
def egMeta : PodMetadata :=
  { containerID := "c1", podName := "nginx", podNamespace := "default",
    hostname := "k8s-default-nginx", tailscaleIPv4 := "100.64.0.7",
    netnsPath := "/var/run/netns/x", hostVethName := "veth0a1b2c3d",
    clusterIP := "10.0.0.1" }

/-- Witness environment for C8: the record loads but its namespace is gone. -/
def egRecoverEnvDeadNS : RecoverEnv :=
  { meta := .ok egMeta, netnsAlive := false, stateFileExists := true,
    ipParse := .ok "100.64.0.7", backend := .ok egServer }

/-- Witness for C8: recovering a record with a dead namespace orphan-cleans
it and surfaces no error. -/
theorem recovery_orphan_cleanup_witness :
    recoverPod egWorld "c1" egRecoverEnvDeadNS
      = (cleanupOrphanedPod egWorld "c1" egMeta.hostVethName, Except.ok ()) :=
  recovery_orphan_cleanup_and_error_accumulation.1 egWorld "c1"
    egRecoverEnvDeadNS egMeta rfl rfl

/-- A prefix of a newline-free list is newline-free. -/
theorem noNL_take (l : List Char) (n : Nat) (h : noNL l = true) :
    noNL (l.take n) = true := by
  unfold noNL at h ⊢
  rw [List.all_eq_true] at h ⊢
  intro c hc
  exact h c (List.take_subset n l hc)

/-- On newline-free names the source rule-2 matcher and the spec rule-2
matcher agree. -/
theorem rsMatchAt_eq_spec (l : List Char) (m : Nat) (h : noNL l = true) :
    rsMatchAt l m = rsMatchAtSpec l m := by
  unfold rsMatchAt rsMatchAtSpec
  rw [noNL_take l (l.length - (m + 7)) h]
  simp

/-- On newline-free names the source rule-3 matcher and the spec rule-3
matcher agree. -/
theorem depMatchAt_eq_spec (l : List Char) (m : Nat) (h : noNL l = true) :
    depMatchAt l m = depMatchAtSpec l m := by
  unfold depMatchAt depMatchAtSpec
  rw [noNL_take l (l.length - (m + 1)) h]
  simp

/-- On newline-free names the source and spec rule-2 submatches agree. -/
theorem rsStrip_eq_spec (l : List Char) (h : noNL l = true) :
    rsStrip l = rsStripSpec l := by
  unfold rsStrip rsStripSpec
  rw [rsMatchAt_eq_spec l 8 h, rsMatchAt_eq_spec l 9 h, rsMatchAt_eq_spec l 10 h]

/-- On newline-free names the source and spec rule-3 submatches agree. -/
theorem depStrip_eq_spec (l : List Char) (h : noNL l = true) :
    depStrip l = depStripSpec l := by
  unfold depStrip depStripSpec
  rw [depMatchAt_eq_spec l 8 h, depMatchAt_eq_spec l 9 h, depMatchAt_eq_spec l 10 h]

/-- C4: on every newline-free workload name, stripKubernetesSuffixes follows
exactly the four ordered rules of the spec (ordinal names unchanged, then the
replica-set shape, then the deployment shape, else unchanged), and the
table entries of the spec evaluate as stated. -/
theorem stripKubernetesSuffixes_follows_rules :
    (∀ s : String, noNL s.data = true →
        stripKubernetesSuffixes s = stripSuffixRulesSpec s)
    ∧ stripKubernetesSuffixes "nginx-deployment-7b5d9c6f8-xyz12" = "nginx-deployment"
    ∧ stripKubernetesSuffixes "redis-statefulset-0" = "redis-statefulset-0"
    ∧ stripKubernetesSuffixes "api-server-5f7d8c9b2a" = "api-server" := by
  refine ⟨?_, by decide, by decide, by decide⟩
  intro s h
  unfold stripKubernetesSuffixes stripSuffixRulesSpec
  rw [rsStrip_eq_spec s.data h, depStrip_eq_spec s.data h]

/-- Witness for C4 on a second spec table entry. -/
theorem stripKubernetesSuffixes_follows_rules_witness :
    stripKubernetesSuffixes "plex-7b5d9c6f8-abcde"
      = stripSuffixRulesSpec "plex-7b5d9c6f8-abcde" :=
  stripKubernetesSuffixes_follows_rules.1 "plex-7b5d9c6f8-abcde" (by decide)

/-- C5: hostname sanitization is exactly lowercase, then replace characters
outside [a-z0-9-] with a dash, then collapse dash runs, then trim leading and
trailing dashes, then truncate to 63 characters, in that order; with the
table entries of the spec evaluating as stated. -/
theorem sanitizeHostname_pipeline :
    (∀ s : String, sanitizeHostname s = String.mk
        ((trimDashes (collapseDashes (replaceInvalidChars
            (s.data.map Char.toLower)))).take 63))
    ∧ sanitizeHostname "my--pod---name" = "my-pod-name"
    ∧ sanitizeHostname "@#$%^&*()" = ""
    ∧ sanitizeHostname (String.mk (List.replicate 78 'a'))
        = String.mk (List.replicate 63 'a') := by
  refine ⟨?_, by decide, by decide, by decide⟩
  intro s
  unfold sanitizeHostname
  dsimp only
  split
  · rfl
  · next h => rw [List.take_of_length_le (by omega)]

/- ===== Registry-uniqueness machinery for C1 ===== -/

/-- Filtering a key out leaves no entry counted for it. -/
theorem countKey_filter_self (l : List (String × ManagedServer)) (cid : String) :
    countKey cid (l.filter (fun p => !(p.1 == cid))) = 0 := by
  unfold countKey
  rw [List.countP_filter]
  have hfun : (fun (p : String × ManagedServer) => (p.1 == cid) && !(p.1 == cid))
      = fun _ => false := by
    funext p
    exact Bool.and_not_self _
  rw [hfun]
  simp

/-- Go map assignment keeps at most one entry per key. -/
theorem countKey_mapSet_le (l : List (String × ManagedServer)) (k : String)
    (v : ManagedServer) (cid : String) (h : countKey cid l ≤ 1) :
    countKey cid (mapSet l k v) ≤ 1 := by
  unfold mapSet
  by_cases hck : k = cid
  · subst hck
    have h0 := countKey_filter_self l k
    unfold countKey at h0 ⊢
    rw [List.countP_cons, h0]
    simp
  · have hk : ((k, v).1 == cid) = false := by simp [hck]
    have hle := (List.filter_sublist l (p := fun p => !(p.1 == k))).countP_le
      (fun p => p.1 == cid)
    unfold countKey at h ⊢
    rw [List.countP_cons, hk]
    simp only [Bool.false_eq_true, if_false, Nat.add_zero]
    exact le_trans hle h

/-- Go map deletion never increases the count of any key. -/
theorem countKey_mapDelete_le (l : List (String × ManagedServer))
    (k cid : String) : countKey cid (mapDelete l k) ≤ countKey cid l := by
  unfold countKey mapDelete
  exact (List.filter_sublist l (p := fun p => !(p.1 == k))).countP_le _

/-- setupVethBridge never touches the registry. -/
theorem setupVethBridge_servers (w : World) (env : BridgeEnv)
    (a b c : String) : (setupVethBridge w env a b c).1.servers = w.servers := by
  unfold setupVethBridge
  repeat' split
  all_goals rfl

/-- AddPod preserves at-most-one-entry-per-id: it either leaves the registry
alone or performs one map assignment on its own container id. -/
theorem addPod_preserves_countKey (w : World) (env : AddEnv)
    (cid a b c d e : String) (h : ∀ k, countKey k w.servers ≤ 1) :
    ∀ k, countKey k (AddPod w env cid a b c d e).1.servers ≤ 1 := by
  intro k
  unfold AddPod
  dsimp only
  repeat' split
  all_goals try exact h k
  all_goals try (rw [setupVethBridge_servers]; exact h k)
  all_goals rw [setupVethBridge_servers]
  all_goals exact countKey_mapSet_le _ _ _ _ (h k)

/-- DeletePod leaves the registry alone or deletes its own container id. -/
theorem deletePod_servers_shape (w : World) (cid : String) :
    (DeletePod w cid).1.servers = w.servers
    ∨ (DeletePod w cid).1.servers = mapDelete w.servers cid := by
  unfold DeletePod
  repeat' split
  all_goals first | (left; rfl) | (right; rfl)

/-- CheckPod never changes the world. -/
theorem checkPod_world (w : World) (cid : String) : (CheckPod w cid).1 = w := by
  unfold CheckPod
  repeat' split
  all_goals rfl

/-- One operation preserves at-most-one-entry-per-id. -/
theorem applyOp_preserves (w : World) (op : Op)
    (h : ∀ c, countKey c w.servers ≤ 1) :
    ∀ c, countKey c (applyOp w op).servers ≤ 1 := by
  intro c
  cases op with
  | add env cid a b p n i =>
    simp only [applyOp]
    exact addPod_preserves_countKey w env cid a b p n i h c
  | delete cid =>
    rcases deletePod_servers_shape w cid with hs | hs
    · simp only [applyOp]
      rw [hs]
      exact h c
    · simp only [applyOp]
      rw [hs]
      exact le_trans (countKey_mapDelete_le _ _ _) (h c)
  | check cid =>
    simp only [applyOp]
    rw [checkPod_world]
    exact h c

/-- A whole operation sequence preserves at-most-one-entry-per-id. -/
theorem runOps_preserves (ops : List Op) :
    ∀ w : World, (∀ c, countKey c w.servers ≤ 1) →
      ∀ c, countKey c (runOps w ops).servers ≤ 1 := by
  induction ops with
  | nil => intro w h c; exact h c
  | cons op rest ih =>
    intro w h c
    exact ih (applyOp w op) (applyOp_preserves w op h) c

/-- C1: from a fresh daemon state, after any sequence of Add, Delete and
Check operations, the registry holds at most one ManagedInstance for any
container id. -/
theorem registry_at_most_one_instance :
    ∀ (clusterName : String) (ops : List Op) (cid : String),
      countKey cid (runOps (World.init clusterName) ops).servers ≤ 1 := by
  intro cn ops cid
  refine runOps_preserves ops (World.init cn) (fun c => ?_) cid
  simp [World.init, countKey]

/- ===== Bridge-error fatality (C6) ===== -/

/-- The bridge-build steps whose failure aborts setupVethBridge: namespace
open, name generation, veth creation, the two link lookups, the namespace
move, the pod-side address assignment and link-up, the pod-side CGNAT route,
the host-side lookup and link-up, and the TUN link lookup.  The host-side /32
route, the two sysctl writes and the TUN CGNAT route are absent: their
failures are only logged. -/
def bridgeFatalStepsOk (env : BridgeEnv) : Bool :=
  exceptOk env.getNS && exceptOk env.randVethName && exceptOk env.linkAdd &&
  exceptOk env.getPodLink && exceptOk env.getHostLink && exceptOk env.setNsFd &&
  exceptOk env.addrAdd && exceptOk env.podLinkSetUp && exceptOk env.podRouteAdd &&
  exceptOk env.hostGetVeth && exceptOk env.hostLinkSetUp && exceptOk env.getTunLink

/-- The AddPod steps that run before the bridge build. -/
def addPreBridgeOk (env : AddEnv) : Bool :=
  exceptOk env.authKey && exceptOk env.mkStateDir && exceptOk env.tunNew &&
  exceptOk env.tunGetLink && exceptOk env.tunSetUp && exceptOk env.netmonNew &&
  exceptOk env.engineNew && exceptOk env.netstackNew && exceptOk env.fileStoreNew &&
  exceptOk env.logidNew && exceptOk env.backendNew && exceptOk env.netstackStart &&
  exceptOk env.backendStart &&
  exceptOk (if env.needsLogin then env.loginStart else Except.ok ()) &&
  exceptOk env.ipWait

/-- Success carriers exist exactly when exceptOk holds. -/
theorem exceptOk_iff {α : Type} (x : Except String α) :
    exceptOk x = true ↔ ∃ v, x = Except.ok v := by
  cases x <;> simp [exceptOk]

/-- Removing a name removes every occurrence of it. -/
theorem not_mem_removeAll (l : List String) (x : String) :
    ¬ x ∈ removeAll l x := by
  unfold removeAll
  intro hx
  rcases List.mem_filter.mp hx with ⟨_, hpx⟩
  simp at hpx

/-- setupVethBridge succeeds exactly when all its fatal steps succeed; the
outcomes of the host-side /32 route, the sysctl writes and the TUN CGNAT
route do not matter. -/
theorem setupVethBridge_ok_iff (w : World) (env : BridgeEnv) (i t ip : String) :
    exceptOk (setupVethBridge w env i t ip).2 = bridgeFatalStepsOk env := by
  unfold setupVethBridge bridgeFatalStepsOk
  dsimp only
  repeat' split
  all_goals simp_all [exceptOk]

/-- C6 (amended): a kernel-object error in any fatal bridge step aborts the
bridge build, and when AddPod reaches the bridge and the bridge fails, that
Add fails and fully unwinds (registry untouched, state directory and TUN
device gone); the host-side /32 route, the sysctl writes and the TUN CGNAT
route are logged, not fatal. -/
theorem bridge_errors_fatal_and_unwound :
    (∀ (w : World) (env : BridgeEnv) (i t ip : String),
        exceptOk (setupVethBridge w env i t ip).2 = bridgeFatalStepsOk env)
    ∧ (∀ (w : World) (env : AddEnv) (cid a b c d e : String),
        lookupServer w cid = none →
        addPreBridgeOk env = true →
        bridgeFatalStepsOk env.bridge = false →
        exceptOk (AddPod w env cid a b c d e).2 = false
        ∧ (AddPod w env cid a b c d e).1.servers = w.servers
        ∧ cid ∉ (AddPod w env cid a b c d e).1.stateDirs
        ∧ tunNameForContainer cid ∉ (AddPod w env cid a b c d e).1.tuns) := by
  refine ⟨setupVethBridge_ok_iff, ?_⟩
  intro w env cid a b c d e hl hpre hbf
  simp only [addPreBridgeOk, Bool.and_eq_true, and_assoc] at hpre
  obtain ⟨h1, h2, h3, h4, h5, h6, h7, h8, h9, h10, h11, h12, h13, h14, h15⟩ := hpre
  obtain ⟨v1, e1⟩ := (exceptOk_iff _).mp h1
  obtain ⟨v2, e2⟩ := (exceptOk_iff _).mp h2
  obtain ⟨v3, e3⟩ := (exceptOk_iff _).mp h3
  obtain ⟨v4, e4⟩ := (exceptOk_iff _).mp h4
  obtain ⟨v5, e5⟩ := (exceptOk_iff _).mp h5
  obtain ⟨v6, e6⟩ := (exceptOk_iff _).mp h6
  obtain ⟨v7, e7⟩ := (exceptOk_iff _).mp h7
  obtain ⟨v8, e8⟩ := (exceptOk_iff _).mp h8
  obtain ⟨v9, e9⟩ := (exceptOk_iff _).mp h9
  obtain ⟨v10, e10⟩ := (exceptOk_iff _).mp h10
  obtain ⟨v11, e11⟩ := (exceptOk_iff _).mp h11
  obtain ⟨v12, e12⟩ := (exceptOk_iff _).mp h12
  obtain ⟨v13, e13⟩ := (exceptOk_iff _).mp h13
  obtain ⟨v14, e14⟩ := (exceptOk_iff _).mp h14
  obtain ⟨v15, e15⟩ := (exceptOk_iff _).mp h15
  unfold AddPod
  dsimp only
  simp only [hl, e1, e2, e3, e4, e5, e6, e7, e8, e9, e10, e11, e12, e13, e14, e15]
  split
  · refine ⟨rfl, ?_, ?_, ?_⟩
    · dsimp only
      rw [setupVethBridge_servers]
    · exact not_mem_removeAll _ _
    · exact not_mem_removeAll _ _
  · next v heq =>
    exfalso
    have hok := congrArg exceptOk heq
    rw [setupVethBridge_ok_iff, hbf] at hok
    simp [exceptOk] at hok

/-- A bridge environment in which installing the host-side /32 route to the
pod address fails and every other step succeeds. -/
def cxBridgeEnv : BridgeEnv :=
  { egBridgeEnv with hostPodRouteAdd := .error "file exists" }

/-- An AddPod environment whose only failing step is the host-side /32 route. -/
def cxAddEnv : AddEnv :=
  { egAddEnv with bridge := cxBridgeEnv }

/-- Counterexample to C6 as stated: a kernel-object error installing the
host-side link-scope route to overlay/32 is not fatal — the Add still
succeeds and registers the pod. -/
theorem hostPodRoute_error_not_fatal :
    exceptOk (AddPod (World.init "k8s") cxAddEnv
        "c1" "/ns" "ts0" "nginx" "default" "10.0.0.1").2 = true
    ∧ lookupServer (AddPod (World.init "k8s") cxAddEnv
        "c1" "/ns" "ts0" "nginx" "default" "10.0.0.1").1 "c1" ≠ none := by
  constructor
  · rfl
  · decide

/-- A bridge environment whose veth creation fails. -/
def wbBridgeEnv : BridgeEnv :=
  { egBridgeEnv with linkAdd := .error "container namespace gone" }

/-- An AddPod environment whose veth creation fails. -/
def wbAddEnv : AddEnv :=
  { egAddEnv with bridge := wbBridgeEnv }

/-- Witness for C6 (amended): a failing veth creation aborts the Add and the
unwind leaves no registry entry, state directory or TUN device. -/
theorem bridge_errors_fatal_and_unwound_witness :
    exceptOk (AddPod (World.init "k8s") wbAddEnv
        "c1" "/ns" "ts0" "nginx" "default" "10.0.0.1").2 = false
    ∧ (AddPod (World.init "k8s") wbAddEnv
        "c1" "/ns" "ts0" "nginx" "default" "10.0.0.1").1.servers
        = (World.init "k8s").servers
    ∧ "c1" ∉ (AddPod (World.init "k8s") wbAddEnv
        "c1" "/ns" "ts0" "nginx" "default" "10.0.0.1").1.stateDirs
    ∧ tunNameForContainer "c1" ∉ (AddPod (World.init "k8s") wbAddEnv
        "c1" "/ns" "ts0" "nginx" "default" "10.0.0.1").1.tuns :=
  bridge_errors_fatal_and_unwound.2 (World.init "k8s") wbAddEnv
    "c1" "/ns" "ts0" "nginx" "default" "10.0.0.1" rfl rfl rfl
